import Mathlib

/-!
Shallow embedding of the admission validation engine in
`pkg/operator/operator/validations.go` (package `operator`).

Modelling choices:
* `kresource.Quantity` (an external k8s library type) is embedded as `Int`:
  the spec's Quantity is a comparable, subtractable scalar whose subtraction
  may go negative. `Quantity.Cmp a b < 0` becomes `a < b`.
* In Go, `maxMem` is a `*kresource.Quantity` pointer and `maxMem.Sub`
  mutates the pointed-to value in place; `maxCPU := config.InstanceMetadata.CPU`
  copies the quantity, so `maxCPU.Sub` only affects the per-call copy, and
  `maxGPU` is a plain integer copy.  The pointer mutation is embedded by
  threading the memory value through `validateCompute` explicitly: the
  function returns the updated memory value alongside its result.
* The reservation constants `_cortexCPUReserve`, `_cortexMemReserve`,
  `_nvidiaCPUReserve`, `_nvidiaMemReserve` are defined elsewhere in the
  repository (not in the analysed fragment); they are passed as a
  `Reservations` record, as the spec's design notes suggest.
* A nil-pointer dereference of `*api.Endpoint` is embedded as the `panic`
  outcome of the `Exec` type.
-/

/-- The resource named in an insufficient-capacity error. -/
inductive Resource where
  | CPU
  | Memory
  | GPU
  deriving DecidableEq, Repr

/-- `ErrorNoAvailableNodeComputeLimit(resourceType, requested, available)`:
the error payload of a failed compute feasibility check. -/
structure ComputeErr where
  resource : Resource
  requested : Int
  available : Int
  deriving DecidableEq, Repr

/-- `userconfig.Compute`: CPU quantity, optional memory quantity
(`Mem *k8s.Quantity`, nil meaning no memory constraint), GPU count. -/
structure Compute where
  cpu : Int
  mem : Option Int
  gpu : Int
  deriving DecidableEq, Repr

/-- The fields of `userconfig.API` used by the validation engine:
`Name`, `Endpoint *string` (optional) and `Compute`. -/
structure API where
  name : String
  endpoint : Option String
  compute : Compute
  deriving DecidableEq, Repr

/-- The typed projection of a virtual service used by the engine:
its gateways, its endpoints, and its `apiName` label (missing label reads
as `""` in Go). -/
structure VirtualService where
  gateways : List String
  endpoints : List String
  apiName : String
  deriving DecidableEq, Repr

/-- The reservation constants subtracted from raw capacity
(`_cortexCPUReserve`, `_cortexMemReserve`, `_nvidiaCPUReserve`,
`_nvidiaMemReserve`), defined outside the analysed fragment. -/
structure Reservations where
  cortexCPU : Int
  cortexMem : Int
  nvidiaCPU : Int
  nvidiaMem : Int
  deriving DecidableEq, Repr

/-- `config.InstanceMetadata`: the raw allocatable CPU quantity and GPU
count of the target instance class.  (Raw memory capacity arrives
separately, via the `maxMem` value fetched by `getValidationK8sResources`.) -/
structure InstanceMetadata where
  cpu : Int
  gpu : Int
  deriving DecidableEq, Repr

/-- The validation error taxonomy of the engine. -/
inductive VErr where
  | noAPIs
  | clusterStateUnavailable
  | structuralError (msg : String)
  | computeError (apiName : String) (e : ComputeErr)
  | duplicateEndpointOwned (ownerAPIName : String) (endpoint : String)
  | duplicateName (group : List API)
  | duplicateEndpointInOneDeploy (group : List API)
  deriving DecidableEq, Repr

/-- Outcome of running a fragment of Go code: a nil-pointer panic, a
returned error, or a normal return value. -/
inductive Exec (α : Type) where
  | panic
  | thrown (e : VErr)
  | ret (x : α)
  deriving DecidableEq, Repr

/-- `validateCompute(compute, config, maxMem)` from validations.go lines
82-107.  `maxMem0` is the value currently stored behind the shared
`maxMem` pointer; the second component of the result is the value stored
behind that pointer after the call (the in-place `Sub` calls on lines 83
and 92 persist across calls).  `maxCPU` and `maxGPU` are per-call copies. -/
def validateCompute (R : Reservations) (compute : Compute)
    (cfg : InstanceMetadata) (maxMem0 : Int) : Option ComputeErr × Int :=
  let maxMem1 := maxMem0 - R.cortexMem
  let maxCPU1 := cfg.cpu - R.cortexCPU
  let maxGPU := cfg.gpu
  let maxCPU := if 0 < maxGPU then maxCPU1 - R.nvidiaCPU else maxCPU1
  let maxMem := if 0 < maxGPU then maxMem1 - R.nvidiaMem else maxMem1
  if maxCPU < compute.cpu then
    (some ⟨.CPU, compute.cpu, maxCPU⟩, maxMem)
  else
    match compute.mem with
    | some m =>
      if maxMem < m then
        (some ⟨.Memory, m, maxMem⟩, maxMem)
      else if maxGPU < compute.gpu then
        (some ⟨.GPU, compute.gpu, maxGPU⟩, maxMem)
      else
        (none, maxMem)
    | none =>
      if maxGPU < compute.gpu then
        (some ⟨.GPU, compute.gpu, maxGPU⟩, maxMem)
      else
        (none, maxMem)

/-- The derived available CPU of one `validateCompute` call
(lines 85-91): raw CPU minus the cortex reserve, minus the nvidia
reserve when the raw GPU count is positive. -/
def availableCPU (R : Reservations) (cfg : InstanceMetadata) : Int :=
  if 0 < cfg.gpu then cfg.cpu - R.cortexCPU - R.nvidiaCPU
  else cfg.cpu - R.cortexCPU

/-- The derived available memory of one `validateCompute` call
(lines 83 and 92), as a function of the memory value the call starts
from: that value minus the cortex reserve, minus the nvidia reserve when
the raw GPU count is positive. -/
def availableMem (R : Reservations) (cfg : InstanceMetadata)
    (maxMem0 : Int) : Int :=
  if 0 < cfg.gpu then maxMem0 - R.cortexMem - R.nvidiaMem
  else maxMem0 - R.cortexMem

/-- Modelled from the spec: `s.EnsureSuffix` lives in `pkg/lib/strings`,
which is not part of the analysed fragment.  Per the spec it normalizes a
path to a canonical trailing-slash form: append the suffix when the string
does not already end with it. -/
def EnsureSuffix (str suffix : String) : String :=
  if suffix.data.isSuffixOf str.data then str else str ++ suffix

/-- `validateEndpointCollisions(api, virtualServices)` from validations.go
lines 109-132.  `k8s.ExtractVirtualServiceGateways` and
`k8s.ExtractVirtualServiceEndpoints` (from `pkg/lib/k8s`, not in the
analysed fragment) are modelled, per the spec's typed `PublishedRoute`
projection, as the `gateways` and `endpoints` fields of `VirtualService`,
with extraction assumed to succeed.  The dereference `*api.Endpoint` on
line 125 is evaluated each time the inner comparison runs; with a nil
endpoint this is a panic, which happens exactly when some virtual service
on the `apis-gateway` has at least one endpoint. -/
def validateEndpointCollisions (api : API) :
    List VirtualService → Exec Unit
  | [] => .ret ()
  | vs :: rest =>
    if "apis-gateway" ∈ vs.gateways then
      if vs.endpoints.isEmpty then
        validateEndpointCollisions api rest
      else
        match api.endpoint with
        | none => .panic
        | some route =>
          match vs.endpoints.find? (fun ep =>
              (EnsureSuffix ep "/" == EnsureSuffix route "/")
                && (vs.apiName != api.name)) with
          | some ep => .thrown (.duplicateEndpointOwned vs.apiName ep)
          | none => validateEndpointCollisions api rest
    else
      validateEndpointCollisions api rest

/-- `findDuplicateNames(apis)` from validations.go lines 134-148: group
the batch by `Name` and return one group of size greater than one, or the
empty list when every name is unique.  (Go iterates the grouping map in
unspecified order; this embedding returns the group of the first name,
in batch order, that occurs more than once.) -/
def findDuplicateNames (apis : List API) : List API :=
  match apis.find? (fun api =>
      1 < (apis.filter (fun b => b.name == api.name)).length) with
  | some api => apis.filter (fun b => b.name == api.name)
  | none => []

/-- `findDuplicateEndpoints(apis)` from validations.go lines 150-164: the
grouping loop dereferences `*api.Endpoint` for every request, so the pass
panics as soon as the batch contains a request with a nil endpoint;
otherwise it returns one group of size greater than one (grouped by
endpoint), or the empty list. -/
def findDuplicateEndpoints (apis : List API) : Exec (List API) :=
  if apis.any (fun api => api.endpoint.isNone) then .panic
  else
    match apis.find? (fun api =>
        1 < (apis.filter (fun b => b.endpoint == api.endpoint)).length) with
    | some api => .ret (apis.filter (fun b => b.endpoint == api.endpoint))
    | none => .ret []

/-- The per-request loop of `ValidateClusterAPIs` (lines 44-51): for each
API in declaration order, run the external structural validator
`spec.ValidateAPI` (from `pkg/types/spec`, not in the analysed fragment;
passed in as `structuralCheck`), then `ValidateK8s` =
`validateCompute` (its error wrapped with the API's identity) followed by
`validateEndpointCollisions`; stop at the first failure.  The memory value
behind the shared `maxMem` pointer is threaded through the iterations and
returned on success. -/
def validateLoop (structuralCheck : API → Option String)
    (R : Reservations) (cfg : InstanceMetadata)
    (vss : List VirtualService) :
    List API → Int → Exec Int
  | [], maxMem => .ret maxMem
  | api :: rest, maxMem =>
    match structuralCheck api with
    | some msg => .thrown (.structuralError msg)
    | none =>
      match validateCompute R api.compute cfg maxMem with
      | (some e, _) => .thrown (.computeError api.name e)
      | (none, maxMem2) =>
        match validateEndpointCollisions api vss with
        | .panic => .panic
        | .thrown e => .thrown e
        | .ret _ => validateLoop structuralCheck R cfg vss rest maxMem2

/-- `ValidateClusterAPIs(apis, projectFileMap)` from validations.go lines
34-64.  The result of `getValidationK8sResources()` is passed in as
`fetch`: `.error` when the fetch failed (the engine then returns that
error, modelled as `clusterStateUnavailable`), `.ok (vss, maxMem)` when it
returned the virtual services and the raw memory capacity. -/
def ValidateClusterAPIs (apis : List API)
    (fetch : Except String (List VirtualService × Int))
    (structuralCheck : API → Option String)
    (R : Reservations) (cfg : InstanceMetadata) : Exec Unit :=
  if apis.isEmpty then .thrown .noAPIs
  else
    match fetch with
    | .error _ => .thrown .clusterStateUnavailable
    | .ok (vss, maxMem) =>
      match validateLoop structuralCheck R cfg vss apis maxMem with
      | .panic => .panic
      | .thrown e => .thrown e
      | .ret _ =>
        if (findDuplicateNames apis).isEmpty then
          match findDuplicateEndpoints apis with
          | .panic => .panic
          | .thrown e => .thrown e
          | .ret dups2 =>
            if dups2.isEmpty then .ret ()
            else .thrown (.duplicateEndpointInOneDeploy dups2)
        else .thrown (.duplicateName (findDuplicateNames apis))

/-- The external cluster state read by `getValidationK8sResources`. -/
structure ClusterState where
  virtualServices : List VirtualService
  memCapacity : Int
  deriving DecidableEq, Repr

/-- Modelled from the spec: the bodies of `config.K8s.ListVirtualServices`
and `updateMemoryCapacityConfigMap` (the two reads launched by
`getValidationK8sResources`, lines 166-184) are not in the analysed
fragment.  Per the spec they are side-effect-free reads of cluster state:
the virtual-service list and the raw memory capacity of the instance
class.  The explicit state-passing form returns the cluster state so that
the absence of mutation is a provable statement. -/
def getValidationK8sResources (cs : ClusterState) :
    Except String (List VirtualService × Int) × ClusterState :=
  (.ok (cs.virtualServices, cs.memCapacity), cs)

/-- One whole validation call against explicit external state: fetch the
cluster state, run `ValidateClusterAPIs`, and return the external state
as the call leaves it. -/
def ValidateClusterAPIsWithState (apis : List API)
    (structuralCheck : API → Option String)
    (R : Reservations) (cfg : InstanceMetadata)
    (cs : ClusterState) : Exec Unit × ClusterState :=
  let (fetch, cs2) := getValidationK8sResources cs
  (ValidateClusterAPIs apis fetch structuralCheck R cfg, cs2)

/-! ## Characterization lemmas for `validateCompute` -/

/-- The result component of `validateCompute`, written in terms of the
derived available capacities: check CPU, then (when present) memory,
then GPU against the raw GPU count. -/
theorem validateCompute_fst (R : Reservations) (c : Compute)
    (cfg : InstanceMetadata) (m0 : Int) :
    (validateCompute R c cfg m0).1 =
      (if availableCPU R cfg < c.cpu then
        some ⟨.CPU, c.cpu, availableCPU R cfg⟩
      else
        match c.mem with
        | some m =>
          if availableMem R cfg m0 < m then
            some ⟨.Memory, m, availableMem R cfg m0⟩
          else if cfg.gpu < c.gpu then some ⟨.GPU, c.gpu, cfg.gpu⟩
          else none
        | none =>
          if cfg.gpu < c.gpu then some ⟨.GPU, c.gpu, cfg.gpu⟩
          else none) := by
  unfold validateCompute availableCPU availableMem
  by_cases hg : 0 < cfg.gpu <;>
    simp only [hg, if_true, if_false] <;>
    rcases c.mem with _ | m <;>
    (repeat' split) <;> simp_all

/-- The memory value left behind the shared `maxMem` pointer by one
`validateCompute` call is the derived available memory, whether the call
succeeded or failed. -/
theorem validateCompute_snd (R : Reservations) (c : Compute)
    (cfg : InstanceMetadata) (m0 : Int) :
    (validateCompute R c cfg m0).2 = availableMem R cfg m0 := by
  unfold validateCompute availableMem
  by_cases hg : 0 < cfg.gpu <;>
    simp only [hg, if_true, if_false] <;>
    rcases c.mem with _ | m <;>
    (repeat' split) <;> simp_all

/-! ## Claims C1-C4: the compute feasibility checker -/

/-- C1: the claim states that the derived available capacity is computed
exactly once per validation call and is identical for every request in the
batch (no cumulative reservation drift across iterations).  The code
violates this for memory: each per-request `validateCompute` call subtracts
the reserves from the value behind the shared `maxMem` pointer again.  With
reserve `cortexMem = 1`, raw capacity `cpu = 4`, `mem = 8`, `gpu = 0`, and
a request needing `cpu 1, mem 7`: a one-element batch passes, but in a
two-element batch of identical requests the second one fails with an
insufficient-Memory error reporting available `6` (after double
subtraction) instead of `7`, so the result depends on the request's
position in the batch. -/
theorem c1_memory_reservation_drift :
    (validateLoop (fun _ => none) ⟨0, 1, 0, 0⟩ ⟨4, 0⟩ []
        [⟨"a", some "/a", ⟨1, some 7, 0⟩⟩] 8 = .ret 7)
  ∧ (ValidateClusterAPIs
        [⟨"a", some "/a", ⟨1, some 7, 0⟩⟩, ⟨"b", some "/b", ⟨1, some 7, 0⟩⟩]
        (.ok ([], 8)) (fun _ => none) ⟨0, 1, 0, 0⟩ ⟨4, 0⟩
      = .thrown (.computeError "b" ⟨Resource.Memory, 7, 6⟩))
  ∧ ((validateCompute ⟨0, 1, 0, 0⟩ ⟨1, some 7, 0⟩ ⟨4, 0⟩ 8).1 = none)
  ∧ ((validateCompute ⟨0, 1, 0, 0⟩ ⟨1, some 7, 0⟩ ⟨4, 0⟩ 7).1
      = some ⟨Resource.Memory, 7, 6⟩) := by
  refine ⟨rfl, rfl, rfl, rfl⟩

/-- C2: for a single request and capacity, one `validateCompute` call
passes exactly when the requested CPU is at most the derived available
CPU, the requested memory (when present) is at most the derived available
memory, and the requested GPU count is at most the raw GPU count — so the
boundary is inclusive — and an absent memory request never produces an
insufficient-Memory error. -/
theorem c2_inclusive_boundary (R : Reservations) (c : Compute)
    (cfg : InstanceMetadata) (m0 : Int) :
    ((validateCompute R c cfg m0).1 = none ↔
       (c.cpu ≤ availableCPU R cfg
         ∧ (∀ m, c.mem = some m → m ≤ availableMem R cfg m0)
         ∧ c.gpu ≤ cfg.gpu))
  ∧ (c.mem = none →
       ∀ e, (validateCompute R c cfg m0).1 = some e →
         e.resource ≠ Resource.Memory) := by
  simp only [validateCompute_fst]
  rcases hm : c.mem with _ | m <;>
    simp only [hm] <;>
    constructor <;>
    (repeat' split) <;>
    simp_all

/-- C2 witness: at reserves `cortexMem = 1` (others zero), raw capacity
`cpu = 4, gpu = 0` and memory value `8`, a request for exactly the derived
available capacity `cpu 4, mem 7, gpu 0` passes. -/
theorem c2_inclusive_boundary_witness :
    (validateCompute ⟨0, 1, 0, 0⟩ ⟨4, some 7, 0⟩ ⟨4, 0⟩ 8).1 = none := by
  have h := c2_inclusive_boundary ⟨0, 1, 0, 0⟩ ⟨4, some 7, 0⟩ ⟨4, 0⟩ 8
  refine h.1.mpr ⟨by decide, ?_, by decide⟩
  intro m hm
  have h2 : (7 : Int) = m := by simpa using hm
  rw [← h2]
  decide

/-- C3: when the requested CPU exceeds the derived available CPU, the
result of `validateCompute` is the insufficient-CPU error, whatever the
request's memory and GPU fields and whatever the memory value are: the
Memory and GPU comparisons do not influence the result. -/
theorem c3_cpu_checked_first (R : Reservations) (c : Compute)
    (cfg : InstanceMetadata) (m0 : Int)
    (h : availableCPU R cfg < c.cpu) :
    (validateCompute R c cfg m0).1 =
      some ⟨Resource.CPU, c.cpu, availableCPU R cfg⟩ := by
  simp only [validateCompute_fst, if_pos h]

/-- C3 witness: with zero reserves and raw capacity `cpu = 4, gpu = 0`, a
request for `cpu 5` fails with the insufficient-CPU error even though its
memory request `100` and GPU request `100` also exceed availability. -/
theorem c3_cpu_checked_first_witness :
    (validateCompute ⟨0, 0, 0, 0⟩ ⟨5, some 100, 100⟩ ⟨4, 0⟩ 0).1 =
      some ⟨Resource.CPU, 5, 4⟩ := by
  have h := c3_cpu_checked_first ⟨0, 0, 0, 0⟩ ⟨5, some 100, 100⟩ ⟨4, 0⟩ 0
    (by decide)
  rw [h]
  decide

/-- C4: the nvidia device-plugin reserve is subtracted from the available
CPU and memory of a `validateCompute` call exactly when the raw GPU count
is positive — visible both in the memory value the call leaves behind the
shared pointer and in the `available` field of every reported error —
while the GPU comparison itself is against the raw GPU count, with no
reservation subtracted from it. -/
theorem c4_gpu_reservation (R : Reservations) (c : Compute)
    (cfg : InstanceMetadata) (m0 : Int) :
    ((validateCompute R c cfg m0).2 =
       m0 - R.cortexMem - (if 0 < cfg.gpu then R.nvidiaMem else 0))
  ∧ (∀ e, (validateCompute R c cfg m0).1 = some e →
       (e.resource = Resource.CPU → e.available =
          cfg.cpu - R.cortexCPU - (if 0 < cfg.gpu then R.nvidiaCPU else 0))
     ∧ (e.resource = Resource.Memory → e.available =
          m0 - R.cortexMem - (if 0 < cfg.gpu then R.nvidiaMem else 0))
     ∧ (e.resource = Resource.GPU → e.available = cfg.gpu))
  ∧ (c.cpu ≤ availableCPU R cfg →
      (∀ m, c.mem = some m → m ≤ availableMem R cfg m0) →
      ((validateCompute R c cfg m0).1 = none ↔ c.gpu ≤ cfg.gpu)) := by
  refine ⟨?_, ?_, ?_⟩
  · rw [validateCompute_snd]
    by_cases hg : 0 < cfg.gpu <;>
      simp only [availableMem, hg, if_true, if_false] <;> omega
  · intro e he
    rw [validateCompute_fst] at he
    by_cases hg : 0 < cfg.gpu <;>
      simp only [availableCPU, availableMem, hg, if_true, if_false] at he ⊢ <;>
      rcases c.mem with _ | m <;>
      (repeat' split at he) <;>
      (try simp only [Option.some.injEq] at he) <;>
      (try subst he) <;>
      simp_all
  · intro hcpu hmem
    rw [validateCompute_fst]
    rcases hm : c.mem with _ | m <;> simp only [hm]
    · rw [if_neg (not_lt.mpr hcpu)]
      split <;> simp_all
    · have hm2 := hmem m hm
      rw [if_neg (not_lt.mpr hcpu), if_neg (not_lt.mpr hm2)]
      split <;> simp_all

/-- C4 witness: with reserves `⟨1, 1, 2, 2⟩`, raw capacity
`cpu = 8, gpu = 1` and memory value `10`, the call leaves `7` behind the
memory pointer (both reserves applied, since the GPU count is positive),
and a request for `cpu 5, mem 7, gpu 1` — exactly the derived availability
and the raw GPU count — passes. -/
theorem c4_gpu_reservation_witness :
    ((validateCompute ⟨1, 1, 2, 2⟩ ⟨5, some 7, 1⟩ ⟨8, 1⟩ 10).2 = 7)
  ∧ ((validateCompute ⟨1, 1, 2, 2⟩ ⟨5, some 7, 1⟩ ⟨8, 1⟩ 10).1 = none) := by
  have h := c4_gpu_reservation ⟨1, 1, 2, 2⟩ ⟨5, some 7, 1⟩ ⟨8, 1⟩ 10
  refine ⟨by rw [h.1]; decide, ?_⟩
  refine (h.2.2 (by decide) ?_).mpr (by decide)
  intro m hm
  have h2 : (7 : Int) = m := by simpa using hm
  rw [← h2]
  decide


/-! ## Claim C5: the endpoint collision detector -/

/-- One unfolding step of `validateEndpointCollisions` when the request's
route is present. -/
theorem validateEndpointCollisions_cons (api : API) (vs : VirtualService)
    (rest : List VirtualService) (route : String)
    (h : api.endpoint = some route) :
    validateEndpointCollisions api (vs :: rest) =
      (if "apis-gateway" ∈ vs.gateways then
        if vs.endpoints.isEmpty then validateEndpointCollisions api rest
        else
          match vs.endpoints.find? (fun ep =>
              (EnsureSuffix ep "/" == EnsureSuffix route "/")
                && (vs.apiName != api.name)) with
          | some ep => .thrown (.duplicateEndpointOwned vs.apiName ep)
          | none => validateEndpointCollisions api rest
      else validateEndpointCollisions api rest) := by
  rw [validateEndpointCollisions, h]

/-- C5: with the request's route present, `validateEndpointCollisions`
fails (with a route-owned-by-other error) exactly when some virtual
service whose gateways include `apis-gateway` has an endpoint equal to the
request's route after trailing-slash normalization and carries an
`apiName` label different from the request's name; a normalized match
owned by the same name never fails the check. -/
theorem c5_collision_iff (api : API) (vss : List VirtualService)
    (route : String) (h : api.endpoint = some route) :
    (∃ owner ep, validateEndpointCollisions api vss =
        .thrown (.duplicateEndpointOwned owner ep)) ↔
      ∃ vs ∈ vss, "apis-gateway" ∈ vs.gateways ∧
        ∃ ep ∈ vs.endpoints,
          EnsureSuffix ep "/" = EnsureSuffix route "/" ∧
            vs.apiName ≠ api.name := by
  induction vss with
  | nil => simp [validateEndpointCollisions]
  | cons vs rest ih =>
    by_cases hgw : "apis-gateway" ∈ vs.gateways
    case neg =>
      have hstep : validateEndpointCollisions api (vs :: rest) =
          validateEndpointCollisions api rest := by
        rw [validateEndpointCollisions_cons api vs rest route h, if_neg hgw]
      rw [hstep, ih]
      constructor
      · rintro ⟨vs2, hvs2, hP⟩
        exact ⟨vs2, List.mem_cons_of_mem vs hvs2, hP⟩
      · rintro ⟨vs2, hvs2, hP⟩
        rcases List.mem_cons.mp hvs2 with rfl | hvs2
        · exact absurd hP.1 hgw
        · exact ⟨vs2, hvs2, hP⟩
    case pos =>
      by_cases hemp : vs.endpoints.isEmpty = true
      case pos =>
        have hstep : validateEndpointCollisions api (vs :: rest) =
            validateEndpointCollisions api rest := by
          rw [validateEndpointCollisions_cons api vs rest route h,
            if_pos hgw, if_pos hemp]
        rw [hstep, ih]
        rw [List.isEmpty_iff] at hemp
        constructor
        · rintro ⟨vs2, hvs2, hP⟩
          exact ⟨vs2, List.mem_cons_of_mem vs hvs2, hP⟩
        · rintro ⟨vs2, hvs2, hP⟩
          rcases List.mem_cons.mp hvs2 with rfl | hvs2
          · rcases hP.2 with ⟨ep, hep, _⟩
            rw [hemp] at hep
            cases hep
          · exact ⟨vs2, hvs2, hP⟩
      case neg =>
        rcases hf : vs.endpoints.find? (fun ep =>
            (EnsureSuffix ep "/" == EnsureSuffix route "/")
              && (vs.apiName != api.name)) with _ | ep
        case none =>
          have hstep : validateEndpointCollisions api (vs :: rest) =
              validateEndpointCollisions api rest := by
            rw [validateEndpointCollisions_cons api vs rest route h,
              if_pos hgw, if_neg hemp, hf]
          rw [hstep, ih]
          rw [List.find?_eq_none] at hf
          constructor
          · rintro ⟨vs2, hvs2, hP⟩
            exact ⟨vs2, List.mem_cons_of_mem vs hvs2, hP⟩
          · rintro ⟨vs2, hvs2, hP⟩
            rcases List.mem_cons.mp hvs2 with rfl | hvs2
            · rcases hP with ⟨_, ep2, hep2, heq2, hne2⟩
              have hno := hf ep2 hep2
              simp only [Bool.and_eq_true, beq_iff_eq, bne_iff_ne, ne_eq,
                not_and] at hno
              exact absurd hne2 (hno heq2)
            · exact ⟨vs2, hvs2, hP⟩
        case some =>
          have hstep : validateEndpointCollisions api (vs :: rest) =
              .thrown (.duplicateEndpointOwned vs.apiName ep) := by
            rw [validateEndpointCollisions_cons api vs rest route h,
              if_pos hgw, if_neg hemp, hf]
          rw [hstep]
          have hp := List.find?_some hf
          have hmem := List.mem_of_find?_eq_some hf
          simp only [Bool.and_eq_true, beq_iff_eq, bne_iff_ne, ne_eq] at hp
          constructor
          · intro _
            exact ⟨vs, List.mem_cons_self vs rest, hgw, ep, hmem,
              hp.1, hp.2⟩
          · intro _
            exact ⟨vs.apiName, ep, rfl⟩

/-- C5 witness: a published route `/x/` on the `apis-gateway`, owned by
`a`, collides with a request for `/x` from `b` (trailing-slash
normalization), while the same request from `a` itself is allowed
(self-collision). -/
theorem c5_collision_iff_witness :
    (∃ owner ep, validateEndpointCollisions ⟨"b", some "/x", ⟨0, none, 0⟩⟩
        [⟨["apis-gateway"], ["/x/"], "a"⟩] =
        .thrown (.duplicateEndpointOwned owner ep))
  ∧ ¬(∃ owner ep, validateEndpointCollisions ⟨"a", some "/x", ⟨0, none, 0⟩⟩
        [⟨["apis-gateway"], ["/x/"], "a"⟩] =
        .thrown (.duplicateEndpointOwned owner ep)) := by
  constructor
  · refine (c5_collision_iff ⟨"b", some "/x", ⟨0, none, 0⟩⟩
      [⟨["apis-gateway"], ["/x/"], "a"⟩] "/x" rfl).mpr ?_
    exact ⟨⟨["apis-gateway"], ["/x/"], "a"⟩, by simp, by simp,
      "/x/", by simp, by decide, by decide⟩
  · intro hc
    have h2 := (c5_collision_iff ⟨"a", some "/x", ⟨0, none, 0⟩⟩
      [⟨["apis-gateway"], ["/x/"], "a"⟩] "/x" rfl).mp hc
    simp at h2

/-! ## Claims C6-C7: the orchestrator -/

/-- C6: the empty batch fails with the no-APIs (empty batch) error before
anything else: the result is the same for every fetch outcome (including a
failed fetch), every structural validator, and every capacity. -/
theorem c6_empty_batch (fetch : Except String (List VirtualService × Int))
    (structuralCheck : API → Option String) (R : Reservations)
    (cfg : InstanceMetadata) :
    ValidateClusterAPIs [] fetch structuralCheck R cfg =
      .thrown .noAPIs := rfl

/-- Every error thrown by `validateEndpointCollisions` is a
route-owned-by-other error. -/
theorem validateEndpointCollisions_thrown (api : API)
    (vss : List VirtualService) (e : VErr)
    (h : validateEndpointCollisions api vss = .thrown e) :
    ∃ owner ep, e = .duplicateEndpointOwned owner ep := by
  induction vss with
  | nil => simp [validateEndpointCollisions] at h
  | cons vs rest ih =>
    rw [validateEndpointCollisions] at h
    split at h
    · split at h
      · exact ih h
      · split at h
        · simp at h
        · split at h
          · simp only [Exec.thrown.injEq] at h
            exact ⟨_, _, h.symm⟩
          · exact ih h
    · exact ih h

/-- Every error thrown by the per-request loop is a structural error, a
compute error, or a route-owned-by-other error — never a batch-duplicate
error. -/
theorem validateLoop_thrown_shape (structuralCheck : API → Option String)
    (R : Reservations) (cfg : InstanceMetadata) (vss : List VirtualService)
    (apis : List API) (mm : Int) (e : VErr)
    (h : validateLoop structuralCheck R cfg vss apis mm = .thrown e) :
    (∃ msg, e = .structuralError msg)
  ∨ (∃ nm ce, e = .computeError nm ce)
  ∨ (∃ owner ep, e = .duplicateEndpointOwned owner ep) := by
  induction apis generalizing mm with
  | nil => simp [validateLoop] at h
  | cons api rest ih =>
    rw [validateLoop] at h
    split at h
    · simp only [Exec.thrown.injEq] at h
      exact Or.inl ⟨_, h.symm⟩
    · split at h
      · simp only [Exec.thrown.injEq] at h
        exact Or.inr (Or.inl ⟨_, _, h.symm⟩)
      · split at h
        · simp at h
        · rename_i e2 hcol
          simp only [Exec.thrown.injEq] at h
          subst h
          exact Or.inr (Or.inr (validateEndpointCollisions_thrown _ _ _ hcol))
        · exact ih _ h

/-- C7: when the orchestrator reports a duplicate-name or duplicate-route
error, the fetch succeeded and the per-request loop ran to completion, so
every request had already passed its structural, feasibility and collision
checks; and a duplicate-route error is only reported when the name pass
found no duplicate group, so the name pass runs first. -/
theorem c7_duplicates_after_loop (apis : List API)
    (fetch : Except String (List VirtualService × Int))
    (structuralCheck : API → Option String) (R : Reservations)
    (cfg : InstanceMetadata) (g : List API)
    (h : ValidateClusterAPIs apis fetch structuralCheck R cfg
           = .thrown (.duplicateName g) ∨
         ValidateClusterAPIs apis fetch structuralCheck R cfg
           = .thrown (.duplicateEndpointInOneDeploy g)) :
    (∃ vss maxMem maxMem2, fetch = .ok (vss, maxMem) ∧
        validateLoop structuralCheck R cfg vss apis maxMem = .ret maxMem2)
  ∧ (ValidateClusterAPIs apis fetch structuralCheck R cfg
        = .thrown (.duplicateEndpointInOneDeploy g) →
      findDuplicateNames apis = []) := by
  rcases fetch with e | ⟨vss, maxMem⟩
  case error =>
    rcases h with h | h <;>
      (simp only [ValidateClusterAPIs] at h; split at h <;> simp at h)
  case ok =>
    by_cases hemp : apis.isEmpty = true
    · rcases h with h | h <;>
        (simp only [ValidateClusterAPIs, if_pos hemp] at h; simp at h)
    · rcases hl : validateLoop structuralCheck R cfg vss apis maxMem
        with _ | e2 | mm2
      · rcases h with h | h <;>
          (simp only [ValidateClusterAPIs, if_neg hemp, hl] at h; simp at h)
      · have hshape :=
          validateLoop_thrown_shape structuralCheck R cfg vss apis maxMem e2 hl
        rcases h with h | h <;>
          simp only [ValidateClusterAPIs, if_neg hemp, hl,
            Exec.thrown.injEq] at h <;>
          subst h <;>
          rcases hshape with ⟨msg, h3⟩ | ⟨nm, ce, h3⟩ | ⟨ow, ep, h3⟩ <;>
          simp at h3
      · refine ⟨⟨vss, maxMem, mm2, rfl, hl⟩, ?_⟩
        intro hdr
        simp only [ValidateClusterAPIs, if_neg hemp, hl] at hdr
        by_cases hD : (findDuplicateNames apis).isEmpty = true
        · exact List.isEmpty_iff.mp hD
        · rw [if_neg hD] at hdr
          simp at hdr

/-- C7 witness: a two-element batch of requests that individually pass
(same name `a`, zero needs) is reported as a duplicate-name error, and the
conclusions of the theorem hold for it. -/
theorem c7_duplicates_after_loop_witness :
    (∃ vss maxMem maxMem2,
        (Except.ok ([], 0) : Except String (List VirtualService × Int))
          = .ok (vss, maxMem) ∧
        validateLoop (fun _ => none) ⟨0, 0, 0, 0⟩ ⟨0, 0⟩ vss
          [⟨"a", some "/a", ⟨0, none, 0⟩⟩, ⟨"a", some "/a", ⟨0, none, 0⟩⟩]
          maxMem = .ret maxMem2)
  ∧ (ValidateClusterAPIs
        [⟨"a", some "/a", ⟨0, none, 0⟩⟩, ⟨"a", some "/a", ⟨0, none, 0⟩⟩]
        (.ok ([], 0)) (fun _ => none) ⟨0, 0, 0, 0⟩ ⟨0, 0⟩
        = .thrown (.duplicateEndpointInOneDeploy
            [⟨"a", some "/a", ⟨0, none, 0⟩⟩, ⟨"a", some "/a", ⟨0, none, 0⟩⟩]) →
      findDuplicateNames
        [⟨"a", some "/a", ⟨0, none, 0⟩⟩, ⟨"a", some "/a", ⟨0, none, 0⟩⟩]
        = []) :=
  c7_duplicates_after_loop
    [⟨"a", some "/a", ⟨0, none, 0⟩⟩, ⟨"a", some "/a", ⟨0, none, 0⟩⟩]
    (.ok ([], 0)) (fun _ => none) ⟨0, 0, 0, 0⟩ ⟨0, 0⟩
    [⟨"a", some "/a", ⟨0, none, 0⟩⟩, ⟨"a", some "/a", ⟨0, none, 0⟩⟩]
    (Or.inl (by decide))

/-! ## Claim C8: no caller-visible side effect -/

/-- C8: a validation call leaves the external cluster state exactly as it
found it, and its result is a pure function of the values read: the two
fetch reads are modelled as side-effect-free reads per the spec, and the
only in-place mutation in the engine (the memory value behind the `maxMem`
pointer) is confined to a value created fresh for the call. -/
theorem c8_no_external_mutation (apis : List API)
    (structuralCheck : API → Option String) (R : Reservations)
    (cfg : InstanceMetadata) (cs : ClusterState) :
    (ValidateClusterAPIsWithState apis structuralCheck R cfg cs).2 = cs
  ∧ (ValidateClusterAPIsWithState apis structuralCheck R cfg cs).1
      = ValidateClusterAPIs apis
          (.ok (cs.virtualServices, cs.memCapacity))
          structuralCheck R cfg :=
  ⟨rfl, rfl⟩

/-! ## Claim C10: the route pointer must be present -/

/-- C10: the batch route-duplicate pass dereferences every request's route
pointer, so it panics exactly when some request's route is absent and
returns a result whenever all routes are present; and the per-request
collision check dereferences the route pointer of a request with an
absent route (and panics) as soon as a virtual service on the
`apis-gateway` has any endpoint to compare against. -/
theorem c10_route_deref_totality (apis : List API) (api : API)
    (vs : VirtualService) :
    (findDuplicateEndpoints apis = .panic ↔ ∃ a ∈ apis, a.endpoint = none)
  ∧ ((∀ a ∈ apis, a.endpoint ≠ none) →
       ∃ r, findDuplicateEndpoints apis = .ret r)
  ∧ (api.endpoint = none → "apis-gateway" ∈ vs.gateways →
       vs.endpoints ≠ [] → validateEndpointCollisions api [vs] = .panic) := by
  refine ⟨?_, ?_, ?_⟩
  · unfold findDuplicateEndpoints
    by_cases hc : apis.any (fun a => a.endpoint.isNone) = true
    · rw [if_pos hc]
      simp only [List.any_eq_true, Option.isNone_iff_eq_none] at hc
      simpa using hc
    · rw [if_neg hc]
      simp only [List.any_eq_true, Option.isNone_iff_eq_none] at hc
      constructor
      · intro hpan
        rcases hf : apis.find? (fun a =>
            1 < (apis.filter (fun b => b.endpoint == a.endpoint)).length)
          with _ | a2
        · rw [hf] at hpan
          simp at hpan
        · rw [hf] at hpan
          simp at hpan
      · rintro ⟨a, ha, hno⟩
        exact absurd ⟨a, ha, hno⟩ hc
  · intro hall
    unfold findDuplicateEndpoints
    have hc : ¬ apis.any (fun a => a.endpoint.isNone) = true := by
      simp only [List.any_eq_true, Option.isNone_iff_eq_none]
      rintro ⟨a, ha, hno⟩
      exact hall a ha hno
    rw [if_neg hc]
    rcases hf : apis.find? (fun a =>
        1 < (apis.filter (fun b => b.endpoint == a.endpoint)).length)
      with _ | a2
    · rw [hf]
      exact ⟨[], rfl⟩
    · rw [hf]
      exact ⟨_, rfl⟩
  · intro hnone hgw hne
    have hemp : ¬ vs.endpoints.isEmpty = true := by
      simpa [List.isEmpty_iff] using hne
    rw [validateEndpointCollisions, if_pos hgw, if_neg hemp, hnone]

/-- C10 witness: a one-element batch whose request has an absent route
makes the duplicate-route pass panic, and the collision check against one
`apis-gateway` service with an endpoint panics for that request. -/
theorem c10_route_deref_totality_witness :
    findDuplicateEndpoints [⟨"a", none, ⟨0, none, 0⟩⟩] = .panic
  ∧ validateEndpointCollisions ⟨"a", none, ⟨0, none, 0⟩⟩
      [⟨["apis-gateway"], ["/x"], "o"⟩] = .panic := by
  have h := c10_route_deref_totality [⟨"a", none, ⟨0, none, 0⟩⟩]
    ⟨"a", none, ⟨0, none, 0⟩⟩ ⟨["apis-gateway"], ["/x"], "o"⟩
  exact ⟨h.1.mpr ⟨⟨"a", none, ⟨0, none, 0⟩⟩, by simp, rfl⟩,
    h.2.2 rfl (by simp) (by simp)⟩
